import Mathlib

/-!
Shallow embedding of the KressATC automatic tool changer
(src/FluidNC/src/Spindles/KressATC.cpp) for verifying its
natural-language specification.

The machine and G-code modal state that the ATC reads and writes through
the external interfaces (gc_state, sys, pins, gc_exec_linef) is modelled
as one explicit state record `St`.  Every observable action — a
synchronous pin write, a submitted G-code line, an update of
`current_tool`, a rejected interlock write — is appended to an event log
`St.log`, so that frame and temporal claims become statements about the
log.  A pin-write event records whether the spindle modal state was
Disable at the instant of the write.  The outcome of a probing motion
(G38.2) is an environment input, carried in the field `probeOutcome`.
Positions are modelled as rationals.
-/

namespace KressATC

/-- Modelled from the spec: constants declared in KressATC.h, which is not
part of the provided sources.  Spec §3: slot 0 is the toolsetter, slots
1..N the physical tools. -/
def TOOL_COUNT : Nat := 4

/-- Modelled from the spec: the toolsetter slot index (slot 0). -/
def ETS_INDEX : Nat := 0

/-- Modelled from the spec: the "no tool loaded" sentinel tool number.
Spec §4.5 calls it "tool 0 / no-tool target", matching
`tool_change(0, false)` in `KressATC::deactivate`. -/
def NO_TOOL : Nat := 0

/-- Modelled from the spec: the "manual change" sentinel, which "must
compare greater than all real tool numbers" (spec §3). -/
def MANUAL_CHG : Nat := TOOL_COUNT + 1

/-- Modelled from the spec: the fixed grab-settle dwell duration
`TOOL_GRAB_TIME` from KressATC.h, in seconds. -/
def TOOL_GRAB_TIME : ℚ := 1/4

/-- Modelled from the spec: the probing feed rate `PROBE_FEEDRATE`
from KressATC.h. -/
def PROBE_FEEDRATE : ℚ := 300

inductive SpindleState
  | Disable
  | CW
  deriving DecidableEq

inductive Distance
  | Absolute
  | Incremental
  deriving DecidableEq

inductive ExecAlarm
  | ProbeFailInitial
  | ProbeFailContact
  | Other
  deriving DecidableEq

structure Vec3 where
  x : ℚ
  y : ℚ
  z : ℚ
  deriving DecidableEq

inductive PinId
  | atc_valve
  | atc_dustoff
  | ets_dustoff
  deriving DecidableEq

/-- The G-code lines the ATC submits through `gc_exec_linef`, abstracted
from their printf formatting. -/
inductive GLine
  | dwell (p : ℚ)
  | rapidZ (z : ℚ)
  | rapidXY (x y : ℚ)
  | rapidXYZ (x y z : ℚ)
  | coolantOff
  | mistOn
  | floodOn
  | spindleOff
  | spindleOn
  | probe (f z : ℚ)
  | setTLO (z : ℚ)
  | absolute
  | incremental
  deriving DecidableEq

/-- Observable actions.  `pinW` records the pin, the written value and
whether the spindle modal state was Disable at the instant of the write;
`reject` records a rejected interlock write (`set_ATC_state` returning
false without touching the pin); `setCurrentTool` records an assignment
to `current_tool`. -/
inductive Event
  | pinW (p : PinId) (value : Bool) (spindleDisabled : Bool)
  | reject (p : PinId)
  | gline (g : GLine)
  | setCurrentTool (n : Nat)
  deriving DecidableEq

/-- Environment input: the result of the next probing motion.  `success`
carries the motor steps (as a machine position) at which the probe
triggered; `alarm` carries the alarm cause raised by the probe cycle. -/
inductive ProbeOutcome
  | success (steps : Vec3)
  | alarm (cause : ExecAlarm)
  deriving DecidableEq

/-- One entry of the `tool[]` array: a machine-space position and the
probed Z offset (`tool_obj::mpos` / `tool_obj::offset[Z_AXIS]`). -/
structure ToolSlot where
  mpos : Vec3
  offsetZ : ℚ
  deriving DecidableEq

/-- The combined state: the G-code modal state and machine state the ATC
reads/writes through its external interfaces, the KressATC member
variables, and the observation log. -/
structure St where
  spindle : SpindleState
  distance : Distance
  coolantFlood : Bool
  coolantMist : Bool
  coordSystemZ : ℚ
  coordOffsetZ : ℚ
  toolLengthOffset : ℚ
  mpos : Vec3
  probeSteps : Vec3
  sysAlarm : Bool
  lastAlarm : ExecAlarm
  valve : Bool
  probeOutcome : ProbeOutcome
  atc_ok : Bool
  current_tool : Nat
  zeroed_tool_index : Nat
  tool : Nat → ToolSlot
  top_of_z : ℚ
  empty_safe_z : ℚ
  tool_setter_probing : Bool
  log : List Event

/-- Append one event to the observation log. -/
def emit (e : Event) (s : St) : St :=
  { s with log := s.log ++ [e] }

/-- `Pin::synchronousWrite`: records the write (together with the spindle
modal state at the instant of the write) and updates the valve state when
the pin is the ATC valve. -/
def synchronousWrite (p : PinId) (b : Bool) (s : St) : St :=
  let s' := emit (Event.pinW p b (decide (s.spindle = SpindleState.Disable))) s
  if p = PinId.atc_valve then { s' with valve := b } else s'

/-- The modal/positional effect of one G-code line, per the external
interface contract (spec §6). -/
def applyLine (g : GLine) (s : St) : St :=
  match g with
  | GLine.dwell _ => s
  | GLine.rapidZ z => { s with mpos := { s.mpos with z := z } }
  | GLine.rapidXY x y => { s with mpos := { s.mpos with x := x, y := y } }
  | GLine.rapidXYZ x y z => { s with mpos := ⟨x, y, z⟩ }
  | GLine.coolantOff => { s with coolantFlood := false, coolantMist := false }
  | GLine.mistOn => { s with coolantMist := true }
  | GLine.floodOn => { s with coolantFlood := true }
  | GLine.spindleOff => { s with spindle := SpindleState.Disable }
  | GLine.spindleOn => { s with spindle := SpindleState.CW }
  | GLine.absolute => { s with distance := Distance.Absolute }
  | GLine.incremental => { s with distance := Distance.Incremental }
  | GLine.setTLO z => { s with toolLengthOffset := z }
  | GLine.probe _ _ =>
    match s.probeOutcome with
    | ProbeOutcome.success steps => { s with probeSteps := steps, mpos := steps }
    | ProbeOutcome.alarm c => { s with sysAlarm := true, lastAlarm := c }

/-- `gc_exec_linef`: log the submitted line, then apply its effect. -/
def gc_exec_linef (g : GLine) (s : St) : St :=
  applyLine g (emit (Event.gline g) s)

/-- `KressATC::set_ATC_state` (KressATC.cpp:238-245): writes the holder
valve only when the spindle modal state is Disable; otherwise fails and
performs no write. -/
def set_ATC_state (opn : Bool) (s : St) : Bool × St :=
  if s.spindle ≠ SpindleState.Disable then
    (false, emit (Event.reject PinId.atc_valve) s)
  else
    (true, synchronousWrite PinId.atc_valve opn s)

/-- `KressATC::goto_top_of_z` (KressATC.cpp:293-295). -/
def goto_top_of_z (s : St) : St :=
  gc_exec_linef (GLine.rapidZ s.top_of_z) s

/-- `KressATC::go_above_tool` (KressATC.cpp:233-236). -/
def go_above_tool (tool_num : Nat) (s : St) : St :=
  let s := goto_top_of_z s
  gc_exec_linef (GLine.rapidXY (s.tool tool_num).mpos.x (s.tool tool_num).mpos.y) s

/-- `KressATC::take_tool` (KressATC.cpp:208-220).  Note that the results
of the two `set_ATC_state` calls are discarded, exactly as in the
source. -/
def take_tool (tool_num : Nat) (s : St) : Bool × St :=
  let s := go_above_tool tool_num s
  let s := (set_ATC_state true s).2
  let s := gc_exec_linef (GLine.dwell (1/4)) s
  let s := gc_exec_linef (GLine.rapidZ (s.tool tool_num).mpos.z) s
  let s := gc_exec_linef (GLine.dwell (1/4)) s
  let s := (set_ATC_state false s).2
  let s := gc_exec_linef (GLine.dwell TOOL_GRAB_TIME) s
  let s := emit (Event.setCurrentTool tool_num) { s with current_tool := tool_num }
  let s := goto_top_of_z s
  (true, s)

/-- `KressATC::return_tool` (KressATC.cpp:222-231). -/
def return_tool (tool_num : Nat) (s : St) : Bool × St :=
  let s := go_above_tool tool_num s
  let s := gc_exec_linef (GLine.rapidZ (s.tool tool_num).mpos.z) s
  let s := (set_ATC_state true s).2
  let s := gc_exec_linef (GLine.rapidZ s.empty_safe_z) s
  let s := (set_ATC_state false s).2
  let s := emit (Event.setCurrentTool NO_TOOL) { s with current_tool := NO_TOOL }
  (true, s)

/-- `KressATC::atc_ETS_dustoff` (KressATC.cpp:247-251). -/
def atc_ETS_dustoff (s : St) : St :=
  let s := synchronousWrite PinId.atc_dustoff true s
  let s := gc_exec_linef (GLine.dwell (1/2)) s
  synchronousWrite PinId.atc_dustoff false s

/-- The classification of a probe cycle result, distinguishing the two
log_error messages of KressATC.cpp:271 from success. -/
inductive ProbeResult
  | ok
  | switchError
  | missingTool
  deriving DecidableEq

/-- `KressATC::atc_toolsetter_probe` (KressATC.cpp:253-287).  The C++
bool return value corresponds to `ProbeResult.ok`; the two failure
values record which error message line 271 selects. -/
def atc_toolsetter_probe (s : St) : ProbeResult × St :=
  let s := atc_ETS_dustoff s
  let s := goto_top_of_z s
  let s := gc_exec_linef
    (GLine.rapidXY (s.tool ETS_INDEX).mpos.x (s.tool ETS_INDEX).mpos.y) s
  let wco := s.coordSystemZ + s.coordOffsetZ + s.toolLengthOffset
  let probe_to := (s.tool ETS_INDEX).mpos.z - wco
  let s := { s with tool_setter_probing := true }
  let s := gc_exec_linef (GLine.probe PROBE_FEEDRATE probe_to) s
  let s := { s with tool_setter_probing := false }
  if s.sysAlarm then
    (if s.lastAlarm = ExecAlarm.ProbeFailInitial then ProbeResult.switchError
     else ProbeResult.missingTool, s)
  else
    let probe_position := s.probeSteps
    let s := { s with
      tool := Function.update s.tool s.current_tool
        { s.tool s.current_tool with offsetZ := probe_position.z } }
    let s :=
      if s.zeroed_tool_index ≠ 0 then
        gc_exec_linef (GLine.setTLO
          ((s.tool s.current_tool).offsetZ - (s.tool s.zeroed_tool_index).offsetZ)) s
      else s
    let s := goto_top_of_z s
    (ProbeResult.ok, s)

/-- `KressATC::tool_change_manual` (KressATC.cpp:103-109).  The results
of the `set_ATC_state` calls are discarded, as in the source. -/
def tool_change_manual (new_tool : Nat) (s : St) : St :=
  let s := (set_ATC_state true s).2
  let s := gc_exec_linef (GLine.dwell 2) s
  let s := (set_ATC_state false s).2
  emit (Event.setCurrentTool new_tool) { s with current_tool := new_tool }

/-- `KressATC::tool_preselect` (KressATC.cpp:111-113): only a log_warn,
no observable effect. -/
def tool_preselect (_ : Nat) (s : St) : St :=
  s

/-- The pre-probe block of the automated tool change
(KressATC.cpp:157-175): stop coolant and spindle if they were on, rise
to the safe height, return the old tool, pick up the new one. -/
def tc_prep (new_tool : Nat) (spindle_was_on : Bool)
    (coolant_state_flood coolant_state_mist : Bool) (s : St) : St :=
  let s := if coolant_state_flood || coolant_state_mist then
      gc_exec_linef GLine.coolantOff s else s
  let s := if spindle_was_on then gc_exec_linef GLine.spindleOff s else s
  let s := goto_top_of_z s
  let s := if s.current_tool ≠ NO_TOOL then (return_tool s.current_tool s).2 else s
  if new_tool ≠ NO_TOOL then (take_tool new_tool s).2 else s

/-- The restore block of the automated tool change
(KressATC.cpp:182-204): return to the saved XY at safe height, restore
spindle and coolant, return to the saved Z adjusted by the tool length
offset, restore the distance mode. -/
def tc_restore (was_incremental_mode spindle_was_on : Bool)
    (coolant_state_flood coolant_state_mist : Bool) (saved_mpos : Vec3)
    (s : St) : St :=
  let s := gc_exec_linef (GLine.rapidXYZ saved_mpos.x saved_mpos.y s.top_of_z) s
  let s := if spindle_was_on then gc_exec_linef GLine.spindleOn s else s
  let s := if coolant_state_mist then gc_exec_linef GLine.mistOn s else s
  let s := if coolant_state_flood then gc_exec_linef GLine.floodOn s else s
  let s := gc_exec_linef (GLine.rapidZ (saved_mpos.z + s.toolLengthOffset)) s
  let s := if s.distance = Distance.Incremental ∧ was_incremental_mode = false then
      gc_exec_linef GLine.absolute s else s
  if s.distance ≠ Distance.Incremental ∧ was_incremental_mode = true then
    gc_exec_linef GLine.incremental s else s

/-- The automated-change tail of `KressATC::tool_change`
(KressATC.cpp:157-205), parameterised by the snapshot taken at
KressATC.cpp:136-141. -/
def tc_auto (new_tool : Nat) (was_incremental_mode spindle_was_on : Bool)
    (coolant_state_flood coolant_state_mist : Bool) (saved_mpos : Vec3)
    (s : St) : Bool × St :=
  let s := tc_prep new_tool spindle_was_on coolant_state_flood coolant_state_mist s
  let pr := atc_toolsetter_probe s
  if pr.1 ≠ ProbeResult.ok then
    (false, pr.2)
  else
    (true, tc_restore was_incremental_mode spindle_was_on
      coolant_state_flood coolant_state_mist saved_mpos pr.2)

/-- `KressATC::tool_change` (KressATC.cpp:115-206).
`protocol_buffer_synchronize` has no observable effect in the model; the
snapshot then reads the current state directly. -/
def tool_change (new_tool : Nat) (pre_select : Bool) (s : St) : Bool × St :=
  if s.atc_ok = false then
    (false, s)
  else if MANUAL_CHG < new_tool then
    (false, s)
  else if pre_select then
    (true, tool_preselect new_tool s)
  else
    let was_incremental_mode := decide (s.distance = Distance.Incremental)
    let spindle_was_on := decide (s.spindle ≠ SpindleState.Disable)
    let coolant_state_flood := s.coolantFlood
    let coolant_state_mist := s.coolantMist
    let saved_mpos := s.mpos
    if s.current_tool = MANUAL_CHG ∨ new_tool = MANUAL_CHG then
      if spindle_was_on then
        (false, s)
      else if (s.current_tool ≠ NO_TOOL ∧ new_tool ≠ NO_TOOL) ∧
          (s.current_tool ≠ MANUAL_CHG ∧ new_tool ≠ MANUAL_CHG) then
        (false, s)
      else
        (true, tool_change_manual new_tool s)
    else
      tc_auto new_tool was_incremental_mode spindle_was_on
        coolant_state_flood coolant_state_mist saved_mpos s

/-- `KressATC::probe_notification` (KressATC.cpp:297-303). -/
def probe_notification (s : St) : St :=
  if s.sysAlarm || s.tool_setter_probing then s
  else { s with zeroed_tool_index := s.current_tool }

/-- `KressATC::deactivate` (KressATC.cpp:305-319).  The base-class
`Spindle::deactivate` call is external and has no effect on the modelled
state. -/
def deactivate (s : St) : St :=
  let s := (tool_change 0 false s).2
  { s with coordOffsetZ := (s.tool s.zeroed_tool_index).offsetZ }

/-- The configuration values `atc_init` consumes (spec §6): the spindle
spin-down delay, whether the ATC valve pin is defined, the Z travel
limit and pulloff, and the position lists. -/
structure Config where
  spindown_ms : Nat
  atc_valve_defined : Bool
  maxZ : ℚ
  pulloff : ℚ
  ets_mpos : List ℚ
  tool_mpos : Fin TOOL_COUNT → List ℚ

/-- The per-tool loop of `KressATC::atc_init` (KressATC.cpp:91-99),
starting at tool index `i`. -/
def atc_init_tools (cfg : Config) (i : Nat) (s : St) : Bool × St :=
  if h : i < TOOL_COUNT then
    if (cfg.tool_mpos ⟨i, h⟩).length ≠ 3 then
      (false, s)
    else
      let l := cfg.tool_mpos ⟨i, h⟩
      let s := { s with
        tool := Function.update s.tool (i + 1)
          { s.tool (i + 1) with mpos := ⟨l.getD 0 0, l.getD 1 0, l.getD 2 0⟩ } }
      atc_init_tools cfg (i + 1) s
  else
    (true, s)
termination_by TOOL_COUNT - i

/-- `KressATC::atc_init` (KressATC.cpp:56-101). `setAttr` has no
observable effect in the model. -/
def atc_init (cfg : Config) (s : St) : Bool × St :=
  if cfg.spindown_ms = 0 then
    (false, s)
  else if cfg.atc_valve_defined = false then
    (false, s)
  else
    let s := { s with top_of_z := cfg.maxZ - cfg.pulloff }
    if cfg.ets_mpos.length ≠ 3 then
      (false, s)
    else
      let s := { s with
        tool := Function.update s.tool ETS_INDEX
          { s.tool ETS_INDEX with
            mpos := ⟨cfg.ets_mpos.getD 0 0, cfg.ets_mpos.getD 1 0,
                     cfg.ets_mpos.getD 2 0⟩ } }
      atc_init_tools cfg 0 s

/-- `KressATC::init` (KressATC.cpp:51-54): latches `_atc_ok` from
`atc_init`.  `OnOff::init` is external. -/
def init (cfg : Config) (s : St) : St :=
  let r := atc_init cfg s
  { r.2 with atc_ok := r.1 }

/-- One call through the ATC's public interface, for stating temporal
properties over arbitrary call sequences.  A `toolChange` call installs
the environment's probe outcome for that call. -/
inductive Op
  | toolChange (new_tool : Nat) (pre : Bool) (po : ProbeOutcome)
  | deact
  | setAtc (b : Bool)
  | probeNotif
  | doInit (cfg : Config)

def runOp : Op → St → St
  | Op.toolChange n pre po, s => (tool_change n pre { s with probeOutcome := po }).2
  | Op.deact, s => deactivate s
  | Op.setAtc b, s => (set_ATC_state b s).2
  | Op.probeNotif, s => probe_notification s
  | Op.doInit cfg, s => init cfg s

def runOps : List Op → St → St
  | [], s => s
  | o :: os, s => runOps os (runOp o s)

/-- An event is a safe valve write unless it writes the ATC valve while
the spindle modal state was not Disable. -/
def goodEv : Event → Bool
  | Event.pinW PinId.atc_valve _ d => d
  | _ => true

/-- Every ATC-valve write in the log happened while the spindle modal
state was Disable. -/
def goodValveWrites (l : List Event) : Bool :=
  l.all goodEv

/-- The number of physical writes to the ATC valve pin in a log. -/
def valveWriteCount (l : List Event) : Nat :=
  (l.filter fun e =>
    match e with
    | Event.pinW PinId.atc_valve _ _ => true
    | _ => false).length

/-- The number of rejected interlock writes in a log. -/
def rejectCount (l : List Event) : Nat :=
  (l.filter fun e =>
    match e with
    | Event.reject _ => true
    | _ => false).length

/-! ### Evaluation lemmas for the primitives -/

@[simp]
lemma gc_dwell (p : ℚ) (s : St) :
    gc_exec_linef (GLine.dwell p) s =
      { s with log := s.log ++ [Event.gline (GLine.dwell p)] } := rfl

@[simp]
lemma gc_rapidZ (z : ℚ) (s : St) :
    gc_exec_linef (GLine.rapidZ z) s =
      { s with mpos := { s.mpos with z := z },
               log := s.log ++ [Event.gline (GLine.rapidZ z)] } := rfl

@[simp]
lemma gc_rapidXY (x y : ℚ) (s : St) :
    gc_exec_linef (GLine.rapidXY x y) s =
      { s with mpos := { s.mpos with x := x, y := y },
               log := s.log ++ [Event.gline (GLine.rapidXY x y)] } := rfl

@[simp]
lemma gc_rapidXYZ (x y z : ℚ) (s : St) :
    gc_exec_linef (GLine.rapidXYZ x y z) s =
      { s with mpos := ⟨x, y, z⟩,
               log := s.log ++ [Event.gline (GLine.rapidXYZ x y z)] } := rfl

@[simp]
lemma gc_coolantOff (s : St) :
    gc_exec_linef GLine.coolantOff s =
      { s with coolantFlood := false, coolantMist := false,
               log := s.log ++ [Event.gline GLine.coolantOff] } := rfl

@[simp]
lemma gc_mistOn (s : St) :
    gc_exec_linef GLine.mistOn s =
      { s with coolantMist := true,
               log := s.log ++ [Event.gline GLine.mistOn] } := rfl

@[simp]
lemma gc_floodOn (s : St) :
    gc_exec_linef GLine.floodOn s =
      { s with coolantFlood := true,
               log := s.log ++ [Event.gline GLine.floodOn] } := rfl

@[simp]
lemma gc_spindleOff (s : St) :
    gc_exec_linef GLine.spindleOff s =
      { s with spindle := SpindleState.Disable,
               log := s.log ++ [Event.gline GLine.spindleOff] } := rfl

@[simp]
lemma gc_spindleOn (s : St) :
    gc_exec_linef GLine.spindleOn s =
      { s with spindle := SpindleState.CW,
               log := s.log ++ [Event.gline GLine.spindleOn] } := rfl

@[simp]
lemma gc_absolute (s : St) :
    gc_exec_linef GLine.absolute s =
      { s with distance := Distance.Absolute,
               log := s.log ++ [Event.gline GLine.absolute] } := rfl

@[simp]
lemma gc_incremental (s : St) :
    gc_exec_linef GLine.incremental s =
      { s with distance := Distance.Incremental,
               log := s.log ++ [Event.gline GLine.incremental] } := rfl

@[simp]
lemma gc_setTLO (z : ℚ) (s : St) :
    gc_exec_linef (GLine.setTLO z) s =
      { s with toolLengthOffset := z,
               log := s.log ++ [Event.gline (GLine.setTLO z)] } := rfl

@[simp]
lemma gc_probe_eval (f z : ℚ) (s : St) :
    gc_exec_linef (GLine.probe f z) s =
      match s.probeOutcome with
      | ProbeOutcome.success stp =>
        { s with probeSteps := stp, mpos := stp,
                 log := s.log ++ [Event.gline (GLine.probe f z)] }
      | ProbeOutcome.alarm c =>
        { s with sysAlarm := true, lastAlarm := c,
                 log := s.log ++ [Event.gline (GLine.probe f z)] } := by
  cases h : s.probeOutcome <;> simp [gc_exec_linef, applyLine, emit, h]

lemma set_ATC_state_disable (b : Bool) (s : St)
    (h : s.spindle = SpindleState.Disable) :
    set_ATC_state b s =
      (true,
        { s with valve := b,
                 log := s.log ++ [Event.pinW PinId.atc_valve b true] }) := by
  simp [set_ATC_state, synchronousWrite, emit, h]

lemma set_ATC_state_reject (b : Bool) (s : St)
    (h : s.spindle ≠ SpindleState.Disable) :
    set_ATC_state b s =
      (false,
        { s with log := s.log ++ [Event.reject PinId.atc_valve] }) := by
  simp [set_ATC_state, emit, h]

@[simp]
lemma dustoff_eval (b : Bool) (s : St) :
    synchronousWrite PinId.atc_dustoff b s =
      { s with log := s.log ++
          [Event.pinW PinId.atc_dustoff b (decide (s.spindle = SpindleState.Disable))] } := by
  simp [synchronousWrite, emit]

/-! ### Concrete states for witnesses and counterexamples -/

/-- A well-initialized quiescent state: spindle off, no alarm, no tool,
empty log. -/
def st0 : St :=
  { spindle := SpindleState.Disable
    distance := Distance.Absolute
    coolantFlood := false
    coolantMist := false
    coordSystemZ := 0
    coordOffsetZ := 0
    toolLengthOffset := 0
    mpos := ⟨0, 0, 0⟩
    probeSteps := ⟨0, 0, 0⟩
    sysAlarm := false
    lastAlarm := ExecAlarm.Other
    valve := false
    probeOutcome := ProbeOutcome.success ⟨0, 0, 0⟩
    atc_ok := true
    current_tool := 0
    zeroed_tool_index := 0
    tool := fun _ => ⟨⟨0, 0, 0⟩, 0⟩
    top_of_z := 100
    empty_safe_z := 50
    tool_setter_probing := false
    log := [] }

/-! ### Helper lemmas -/

lemma tool_change_not_ok (n : Nat) (pre : Bool) (s : St)
    (h : s.atc_ok = false) : tool_change n pre s = (false, s) := by
  simp [tool_change, h]

lemma atc_init_tools_bad (cfg : Config) :
    ∀ (k i : Nat) (s : St), TOOL_COUNT - i ≤ k →
      (∃ j : Fin TOOL_COUNT, i ≤ j.1 ∧ (cfg.tool_mpos j).length ≠ 3) →
      (atc_init_tools cfg i s).1 = false := by
  intro k
  induction k with
  | zero =>
    intro i s hk h
    obtain ⟨j, hij, _⟩ := h
    have := j.isLt
    omega
  | succ k ih =>
    intro i s hk h
    obtain ⟨j, hij, hbad⟩ := h
    unfold atc_init_tools
    split
    · rename_i hi
      split
      · rfl
      · rename_i hgood
        apply ih
        · omega
        · refine ⟨j, ?_, hbad⟩
          rcases Nat.eq_or_lt_of_le hij with he | hl
          · exfalso
            apply hgood
            have hj : j = ⟨i, hi⟩ := Fin.ext he.symm
            rw [hj] at hbad
            exact hbad
          · omega
    · rename_i hi
      have := j.isLt
      omega

lemma atc_init_bad (cfg : Config) (s : St)
    (h : cfg.spindown_ms = 0 ∨ cfg.ets_mpos.length ≠ 3 ∨
         ∃ j : Fin TOOL_COUNT, (cfg.tool_mpos j).length ≠ 3) :
    (atc_init cfg s).1 = false := by
  unfold atc_init
  split
  · rfl
  · split
    · rfl
    · rename_i h0 hdef
      split
      · rfl
      · rename_i h3
        rcases h with h | h | ⟨j, hj⟩
        · exact absurd h h0
        · exact absurd h h3
        · exact atc_init_tools_bad cfg TOOL_COUNT 0 _ (by omega)
            ⟨j, Nat.zero_le _, hj⟩

lemma init_atc_ok (cfg : Config) (s : St) :
    (init cfg s).atc_ok = (atc_init cfg s).1 := rfl

/-! ### Claims -/

/-- C5: `atc_init` returns false (so `atc_ok` is latched false) whenever
the spindle spin-down delay is zero, or the toolsetter position list or
any tool slot's position list does not have exactly 3 components; and
every subsequent `tool_change` call made while `atc_ok` is false is
rejected immediately with the state (in particular the event log)
unchanged — zero motion commands and zero pin writes. -/
theorem C5_fail_fast_init :
    (∀ (cfg : Config) (s : St),
        (cfg.spindown_ms = 0 ∨ cfg.ets_mpos.length ≠ 3 ∨
          ∃ j : Fin TOOL_COUNT, (cfg.tool_mpos j).length ≠ 3) →
        (atc_init cfg s).1 = false ∧ (init cfg s).atc_ok = false) ∧
    (∀ (n : Nat) (pre : Bool) (s : St), s.atc_ok = false →
        tool_change n pre s = (false, s)) := by
  constructor
  · intro cfg s h
    refine ⟨atc_init_bad cfg s h, ?_⟩
    rw [init_atc_ok]
    exact atc_init_bad cfg s h
  · exact fun n pre s h => tool_change_not_ok n pre s h

/-- A configuration with a zero spin-down delay. -/
def cfgBad : Config :=
  { spindown_ms := 0
    atc_valve_defined := true
    maxZ := 100
    pulloff := 2
    ets_mpos := [157, 142, -31]
    tool_mpos := fun _ => [197, 142, -26] }

/-- A state in which `atc_ok` is latched false. -/
def stNotOk : St := { st0 with atc_ok := false }

theorem C5_fail_fast_init_witness :
    (atc_init cfgBad st0).1 = false ∧ (init cfgBad st0).atc_ok = false ∧
    tool_change 2 false stNotOk = (false, stNotOk) :=
  ⟨(C5_fail_fast_init.1 cfgBad st0 (Or.inl rfl)).1,
   (C5_fail_fast_init.1 cfgBad st0 (Or.inl rfl)).2,
   C5_fail_fast_init.2 2 false stNotOk rfl⟩

/-- C9: a `tool_change(new_tool, pre_select = true)` call that passes
validation (`atc_ok` true, `new_tool` not above the manual-change
sentinel) returns success with the state completely unchanged: no motion
commands, no pin writes, `current_tool` and everything else intact. -/
theorem C9_preselect_noop (n : Nat) (s : St) (h1 : s.atc_ok = true)
    (h2 : n ≤ MANUAL_CHG) : tool_change n true s = (true, s) := by
  simp [tool_change, h1, tool_preselect, Nat.not_lt.mpr h2]

theorem C9_preselect_noop_witness :
    st0.atc_ok = true ∧ 2 ≤ MANUAL_CHG ∧ tool_change 2 true st0 = (true, st0) :=
  ⟨rfl, by decide, C9_preselect_noop 2 st0 rfl (by decide)⟩

/-- C10: `atc_init` also returns false — latching `atc_ok` false and
causing every subsequent `tool_change` call to be rejected — whenever
the ATC valve pin is undefined, even when the spin-down delay is nonzero
and every position list has exactly 3 components. -/
theorem C10_valve_pin_required (cfg : Config) (s : St)
    (h1 : cfg.atc_valve_defined = false) (h2 : cfg.spindown_ms ≠ 0)
    (h3 : cfg.ets_mpos.length = 3)
    (h4 : ∀ j : Fin TOOL_COUNT, (cfg.tool_mpos j).length = 3) :
    (atc_init cfg s).1 = false ∧ (init cfg s).atc_ok = false ∧
    ∀ (n : Nat) (pre : Bool),
      tool_change n pre (init cfg s) = (false, init cfg s) := by
  have hinit : (atc_init cfg s).1 = false := by
    simp [atc_init, h1]
  have hok : (init cfg s).atc_ok = false := by
    rw [init_atc_ok]
    exact hinit
  exact ⟨hinit, hok, fun n pre => tool_change_not_ok n pre _ hok⟩

/-- A configuration whose only defect is the undefined ATC valve pin. -/
def cfgNoValve : Config :=
  { spindown_ms := 4000
    atc_valve_defined := false
    maxZ := 100
    pulloff := 2
    ets_mpos := [157, 142, -31]
    tool_mpos := fun _ => [197, 142, -26] }

theorem C10_valve_pin_required_witness :
    (atc_init cfgNoValve st0).1 = false ∧
    (init cfgNoValve st0).atc_ok = false ∧
    tool_change 2 false (init cfgNoValve st0) = (false, init cfgNoValve st0) := by
  have h := C10_valve_pin_required cfgNoValve st0 rfl (by decide) rfl
    (fun _ => rfl)
  exact ⟨h.1, h.2.1, h.2.2 2 false⟩

/-- A state with the real tool 3 mounted, spindle off, ATC ready. -/
def st3 : St := { st0 with current_tool := 3 }

/-- C3: the claim says that with a real tool mounted
(`current_tool = 3`), requesting the manual-change sentinel must fail
with no state mutation and no valve actuation.  The code instead accepts
it: the `InvalidManualSequence` guard at KressATC.cpp:149 is
unsatisfiable whenever the manual path at line 144 is taken, so the
change succeeds, actuates the holder valve twice and overwrites
`current_tool` with the sentinel. -/
theorem C3_manual_change_bug :
    st3.current_tool = 3 ∧ st3.spindle = SpindleState.Disable ∧
    (tool_change MANUAL_CHG false st3).1 = true ∧
    (tool_change MANUAL_CHG false st3).2.current_tool = MANUAL_CHG ∧
    valveWriteCount (tool_change MANUAL_CHG false st3).2.log = 2 := by
  decide

/-- C7 counterexample: `deactivate` assigns the zeroed tool's absolute
probed machine Z to the coordinate offset; with a nonzero work
coordinate system Z (here 10) this differs from the claimed value
"measured height relative to the current work coordinate system". -/
def st7 : St :=
  { st0 with
    atc_ok := false
    zeroed_tool_index := 1
    coordSystemZ := 10
    tool := fun n => if n = 1 then ⟨⟨0, 0, 0⟩, 5⟩ else ⟨⟨0, 0, 0⟩, 0⟩ }

theorem C7_deactivate_counterexample :
    (deactivate st7).coordOffsetZ = 5 ∧
    (st7.tool st7.zeroed_tool_index).offsetZ - st7.coordSystemZ = -5 ∧
    ¬ (deactivate st7).coordOffsetZ =
        (st7.tool st7.zeroed_tool_index).offsetZ - st7.coordSystemZ := by
  have h1 : (deactivate st7).coordOffsetZ = 5 := rfl
  have h2 : (st7.tool st7.zeroed_tool_index).offsetZ = 5 := rfl
  have h3 : st7.coordSystemZ = 10 := rfl
  refine ⟨h1, ?_, ?_⟩
  · rw [h2, h3]
    norm_num
  · rw [h1, h2, h3]
    norm_num

/-- C7 (amended): `deactivate()` first forces a tool change to tool 0 —
its observable actions are exactly those of `tool_change(0, false)` —
and then sets the coordinate system's Z reference offset to the measured
probe height (absolute machine Z) of the last-zeroed tool, without
subtracting the current work coordinate system offset. -/
theorem C7_deactivate_order (s : St) :
    (deactivate s).log = (tool_change 0 false s).2.log ∧
    (deactivate s).current_tool = (tool_change 0 false s).2.current_tool ∧
    (deactivate s).coordOffsetZ =
      ((tool_change 0 false s).2.tool
        (tool_change 0 false s).2.zeroed_tool_index).offsetZ :=
  ⟨rfl, rfl, rfl⟩

/-- C8: with the spindle modal state Disable (as guaranteed on the
automated tool-change path), `take_tool` performs exactly, in order:
travel to the safe top-of-Z height, move in XY above the target slot,
open the holder, dwell 250 ms, descend to the slot's stored Z, dwell
250 ms, close the holder, dwell for the fixed grab-settle duration, then
update `current_tool`, then return to the safe height.  `current_tool`
is updated only after the grab sequence, never speculatively. -/
theorem C8_take_tool_sequence (n : Nat) (s : St)
    (h : s.spindle = SpindleState.Disable) :
    (take_tool n s).1 = true ∧
    (take_tool n s).2.current_tool = n ∧
    (take_tool n s).2.log = s.log ++
      [Event.gline (GLine.rapidZ s.top_of_z),
       Event.gline (GLine.rapidXY (s.tool n).mpos.x (s.tool n).mpos.y),
       Event.pinW PinId.atc_valve true true,
       Event.gline (GLine.dwell (1/4)),
       Event.gline (GLine.rapidZ (s.tool n).mpos.z),
       Event.gline (GLine.dwell (1/4)),
       Event.pinW PinId.atc_valve false true,
       Event.gline (GLine.dwell TOOL_GRAB_TIME),
       Event.setCurrentTool n,
       Event.gline (GLine.rapidZ s.top_of_z)] := by
  simp [take_tool, go_above_tool, goto_top_of_z, set_ATC_state_disable,
    emit, h]

theorem C8_take_tool_sequence_witness :
    st0.spindle = SpindleState.Disable ∧
    ((take_tool 2 st0).1 = true ∧
     (take_tool 2 st0).2.current_tool = 2 ∧
     (take_tool 2 st0).2.log = st0.log ++
       [Event.gline (GLine.rapidZ st0.top_of_z),
        Event.gline (GLine.rapidXY (st0.tool 2).mpos.x (st0.tool 2).mpos.y),
        Event.pinW PinId.atc_valve true true,
        Event.gline (GLine.dwell (1/4)),
        Event.gline (GLine.rapidZ (st0.tool 2).mpos.z),
        Event.gline (GLine.dwell (1/4)),
        Event.pinW PinId.atc_valve false true,
        Event.gline (GLine.dwell TOOL_GRAB_TIME),
        Event.setCurrentTool 2,
        Event.gline (GLine.rapidZ st0.top_of_z)]) :=
  ⟨rfl, C8_take_tool_sequence 2 st0 rfl⟩

/-! ### Probing engine lemmas -/

lemma probe_alarm_spec (s : St) (c : ExecAlarm)
    (hpo : s.probeOutcome = ProbeOutcome.alarm c) :
    (atc_toolsetter_probe s).1 =
      (if c = ExecAlarm.ProbeFailInitial then ProbeResult.switchError
       else ProbeResult.missingTool) ∧
    (atc_toolsetter_probe s).2.log = s.log ++
      [Event.pinW PinId.atc_dustoff true (decide (s.spindle = SpindleState.Disable)),
       Event.gline (GLine.dwell (1/2)),
       Event.pinW PinId.atc_dustoff false (decide (s.spindle = SpindleState.Disable)),
       Event.gline (GLine.rapidZ s.top_of_z),
       Event.gline (GLine.rapidXY (s.tool ETS_INDEX).mpos.x
         (s.tool ETS_INDEX).mpos.y),
       Event.gline (GLine.probe PROBE_FEEDRATE
         ((s.tool ETS_INDEX).mpos.z -
           (s.coordSystemZ + s.coordOffsetZ + s.toolLengthOffset)))] := by
  cases s with
  | mk sp di cf cm csz coz tlo mp ps sa la vl po ok ct zt tl tz ez tsp lg =>
    dsimp only at hpo
    subst hpo
    simp [atc_toolsetter_probe, atc_ETS_dustoff, goto_top_of_z,
      gc_exec_linef, applyLine, emit, synchronousWrite]

lemma probe_success_spec (s : St) (stp : Vec3)
    (hpo : s.probeOutcome = ProbeOutcome.success stp)
    (hal : s.sysAlarm = false) :
    (atc_toolsetter_probe s).1 = ProbeResult.ok ∧
    ((atc_toolsetter_probe s).2.tool s.current_tool).offsetZ = stp.z ∧
    (atc_toolsetter_probe s).2.current_tool = s.current_tool ∧
    (atc_toolsetter_probe s).2.zeroed_tool_index = s.zeroed_tool_index ∧
    (atc_toolsetter_probe s).2.distance = s.distance ∧
    (atc_toolsetter_probe s).2.spindle = s.spindle ∧
    (atc_toolsetter_probe s).2.top_of_z = s.top_of_z ∧
    (s.zeroed_tool_index ≠ 0 →
      (atc_toolsetter_probe s).2.toolLengthOffset =
        ((atc_toolsetter_probe s).2.tool s.current_tool).offsetZ -
        ((atc_toolsetter_probe s).2.tool s.zeroed_tool_index).offsetZ ∧
      Event.gline (GLine.setTLO ((atc_toolsetter_probe s).2.toolLengthOffset)) ∈
        (atc_toolsetter_probe s).2.log) ∧
    (s.zeroed_tool_index = 0 →
      (atc_toolsetter_probe s).2.toolLengthOffset = s.toolLengthOffset) := by
  cases s with
  | mk sp di cf cm csz coz tlo mp ps sa la vl po ok ct zt tl tz ez tsp lg =>
    dsimp only at hpo hal
    subst hpo
    subst hal
    by_cases hz : zt = 0
    · subst hz
      simp [atc_toolsetter_probe, atc_ETS_dustoff, goto_top_of_z,
        gc_exec_linef, applyLine, emit, synchronousWrite]
    · simp [atc_toolsetter_probe, atc_ETS_dustoff, goto_top_of_z,
        gc_exec_linef, applyLine, emit, synchronousWrite, hz]

/-- C4: the outcome mapping of `atc_toolsetter_probe`: an alarm with
cause `ProbeFailInitial` yields the probe-switch error; an alarm with
any other cause yields the missing-tool error; with no alarm the probed
machine Z is recorded as the current tool's offset and, when a zeroed
reference tool exists (`zeroed_tool_index ≠ 0`), a tool length offset
equal to `offset[current_tool] - offset[zeroed_tool_index]` is applied
through the G-code interface, and the probe call succeeds. -/
theorem C4_probe_outcome_mapping (s : St) :
    (s.probeOutcome = ProbeOutcome.alarm ExecAlarm.ProbeFailInitial →
      (atc_toolsetter_probe s).1 = ProbeResult.switchError) ∧
    (∀ c, s.probeOutcome = ProbeOutcome.alarm c →
      c ≠ ExecAlarm.ProbeFailInitial →
      (atc_toolsetter_probe s).1 = ProbeResult.missingTool) ∧
    (∀ stp, s.probeOutcome = ProbeOutcome.success stp → s.sysAlarm = false →
      (atc_toolsetter_probe s).1 = ProbeResult.ok ∧
      ((atc_toolsetter_probe s).2.tool s.current_tool).offsetZ = stp.z ∧
      (s.zeroed_tool_index ≠ 0 →
        (atc_toolsetter_probe s).2.toolLengthOffset =
          ((atc_toolsetter_probe s).2.tool s.current_tool).offsetZ -
          ((atc_toolsetter_probe s).2.tool s.zeroed_tool_index).offsetZ ∧
        Event.gline (GLine.setTLO ((atc_toolsetter_probe s).2.toolLengthOffset)) ∈
          (atc_toolsetter_probe s).2.log)) := by
  refine ⟨?_, ?_, ?_⟩
  · intro h
    have h1 := (probe_alarm_spec s _ h).1
    simpa using h1
  · intro c h hc
    have h1 := (probe_alarm_spec s c h).1
    rw [h1, if_neg hc]
  · intro stp h hal
    obtain ⟨g1, g2, -, -, -, -, -, g8, -⟩ := probe_success_spec s stp h hal
    exact ⟨g1, g2, g8⟩

/-- A state whose next probe fails before any contact is expected. -/
def stPF : St :=
  { st0 with probeOutcome := ProbeOutcome.alarm ExecAlarm.ProbeFailInitial }

/-- A state whose next probe fails with a non-initial alarm. -/
def stPC : St :=
  { st0 with probeOutcome := ProbeOutcome.alarm ExecAlarm.ProbeFailContact }

/-- A state whose next probe succeeds at machine position (7, 8, 9),
with tool 2 mounted and tool 1 as the zeroed reference. -/
def stPS : St :=
  { st0 with probeOutcome := ProbeOutcome.success ⟨7, 8, 9⟩,
             current_tool := 2, zeroed_tool_index := 1 }

theorem C4_probe_outcome_mapping_witness :
    (atc_toolsetter_probe stPF).1 = ProbeResult.switchError ∧
    (atc_toolsetter_probe stPC).1 = ProbeResult.missingTool ∧
    (atc_toolsetter_probe stPS).1 = ProbeResult.ok ∧
    ((atc_toolsetter_probe stPS).2.tool stPS.current_tool).offsetZ = (9 : ℚ) ∧
    (atc_toolsetter_probe stPS).2.toolLengthOffset =
      ((atc_toolsetter_probe stPS).2.tool stPS.current_tool).offsetZ -
      ((atc_toolsetter_probe stPS).2.tool stPS.zeroed_tool_index).offsetZ :=
  ⟨(C4_probe_outcome_mapping stPF).1 rfl,
   (C4_probe_outcome_mapping stPC).2.1 ExecAlarm.ProbeFailContact rfl (by decide),
   ((C4_probe_outcome_mapping stPS).2.2 ⟨7, 8, 9⟩ rfl rfl).1,
   ((C4_probe_outcome_mapping stPS).2.2 ⟨7, 8, 9⟩ rfl rfl).2.1,
   (((C4_probe_outcome_mapping stPS).2.2 ⟨7, 8, 9⟩ rfl rfl).2.2 (by decide)).1⟩

/-! ### Phase lemmas for the automated tool change -/

lemma tc_prep_spec (n : Nat) (so cf cm : Bool) (s : St)
    (hsp : so = false → s.spindle = SpindleState.Disable) :
    (tc_prep n so cf cm s).probeOutcome = s.probeOutcome ∧
    (tc_prep n so cf cm s).sysAlarm = s.sysAlarm ∧
    (tc_prep n so cf cm s).distance = s.distance ∧
    (tc_prep n so cf cm s).top_of_z = s.top_of_z ∧
    (tc_prep n so cf cm s).spindle = SpindleState.Disable ∧
    rejectCount (tc_prep n so cf cm s).log = rejectCount s.log ∧
    goodValveWrites (tc_prep n so cf cm s).log = goodValveWrites s.log := by
  cases s with
  | mk sp di cf' cm' csz coz tlo mp ps sa la vl po ok ct zt tl tz ez tsp lg =>
    cases so with
    | false =>
      have hsp' : sp = SpindleState.Disable := by
        have := hsp rfl
        exact this
      subst hsp'
      cases cf <;> cases cm <;>
        by_cases hct : ct = NO_TOOL <;> by_cases hn : n = NO_TOOL <;>
        simp [tc_prep, return_tool, take_tool, go_above_tool, goto_top_of_z,
          gc_exec_linef, applyLine, emit, synchronousWrite, set_ATC_state,
          rejectCount, goodValveWrites, goodEv, List.filter_append,
          List.all_append, hct, hn]
    | true =>
      cases cf <;> cases cm <;>
        by_cases hct : ct = NO_TOOL <;> by_cases hn : n = NO_TOOL <;>
        simp [tc_prep, return_tool, take_tool, go_above_tool, goto_top_of_z,
          gc_exec_linef, applyLine, emit, synchronousWrite, set_ATC_state,
          rejectCount, goodValveWrites, goodEv, List.filter_append,
          List.all_append, hct, hn]

lemma probe_log_counts (s : St) :
    rejectCount (atc_toolsetter_probe s).2.log = rejectCount s.log ∧
    goodValveWrites (atc_toolsetter_probe s).2.log = goodValveWrites s.log := by
  cases s with
  | mk sp di cf cm csz coz tlo mp ps sa la vl po ok ct zt tl tz ez tsp lg =>
    cases po <;> cases sa <;> by_cases hz : zt = 0 <;>
      simp [atc_toolsetter_probe, atc_ETS_dustoff, goto_top_of_z,
        gc_exec_linef, applyLine, emit, synchronousWrite,
        rejectCount, goodValveWrites, goodEv, List.filter_append,
        List.all_append, hz]

lemma tc_restore_spec (wi so cf cm : Bool) (sv : Vec3) (s : St) :
    (tc_restore wi so cf cm sv s).mpos.x = sv.x ∧
    (tc_restore wi so cf cm sv s).mpos.y = sv.y ∧
    (tc_restore wi so cf cm sv s).mpos.z =
      sv.z + (tc_restore wi so cf cm sv s).toolLengthOffset ∧
    (tc_restore wi so cf cm sv s).toolLengthOffset = s.toolLengthOffset ∧
    ((wi = true ↔ s.distance = Distance.Incremental) →
      (tc_restore wi so cf cm sv s).distance = s.distance) ∧
    rejectCount (tc_restore wi so cf cm sv s).log = rejectCount s.log ∧
    goodValveWrites (tc_restore wi so cf cm sv s).log =
      goodValveWrites s.log := by
  cases s with
  | mk sp di cf' cm' csz coz tlo mp ps sa la vl po ok ct zt tl tz ez tsp lg =>
    cases di <;> cases wi <;> cases so <;> cases cf <;> cases cm <;>
      simp [tc_restore, gc_exec_linef, applyLine, emit,
        rejectCount, goodValveWrites, goodEv, List.filter_append,
        List.all_append]

lemma tool_change_to_auto (n : Nat) (s : St) (h1 : s.atc_ok = true)
    (h2 : n ≤ MANUAL_CHG) (h3 : s.current_tool ≠ MANUAL_CHG)
    (h4 : n ≠ MANUAL_CHG) :
    tool_change n false s =
      tc_auto n (decide (s.distance = Distance.Incremental))
        (decide (s.spindle ≠ SpindleState.Disable))
        s.coolantFlood s.coolantMist s.mpos s := by
  simp only [tool_change]
  rw [if_neg (by simp [h1]), if_neg (Nat.not_lt.mpr h2), if_neg (by simp),
    if_neg (by simp [h3, h4])]

lemma tc_auto_success (n : Nat) (wi so cf cm : Bool) (sv : Vec3) (s : St)
    (stp : Vec3)
    (hsp : so = false → s.spindle = SpindleState.Disable)
    (hpo : s.probeOutcome = ProbeOutcome.success stp)
    (hal : s.sysAlarm = false)
    (hwi : wi = true ↔ s.distance = Distance.Incremental) :
    (tc_auto n wi so cf cm sv s).1 = true ∧
    (tc_auto n wi so cf cm sv s).2.mpos.x = sv.x ∧
    (tc_auto n wi so cf cm sv s).2.mpos.y = sv.y ∧
    (tc_auto n wi so cf cm sv s).2.mpos.z =
      sv.z + (tc_auto n wi so cf cm sv s).2.toolLengthOffset ∧
    (tc_auto n wi so cf cm sv s).2.distance = s.distance := by
  obtain ⟨ppo, pal, pdi, -, -, -, -⟩ := tc_prep_spec n so cf cm s hsp
  have hpo1 : (tc_prep n so cf cm s).probeOutcome = ProbeOutcome.success stp := by
    rw [ppo, hpo]
  have hal1 : (tc_prep n so cf cm s).sysAlarm = false := by
    rw [pal, hal]
  obtain ⟨q1, -, -, -, qdi, -, -, -, -⟩ :=
    probe_success_spec _ stp hpo1 hal1
  have hred : tc_auto n wi so cf cm sv s =
      (true, tc_restore wi so cf cm sv
        (atc_toolsetter_probe (tc_prep n so cf cm s)).2) := by
    simp only [tc_auto]
    rw [if_neg (by simp [q1])]
  obtain ⟨r1, r2, r3, -, r5, -, -⟩ :=
    tc_restore_spec wi so cf cm sv (atc_toolsetter_probe (tc_prep n so cf cm s)).2
  rw [hred]
  refine ⟨rfl, r1, r2, r3, ?_⟩
  have hwi2 : wi = true ↔
      (atc_toolsetter_probe (tc_prep n so cf cm s)).2.distance =
        Distance.Incremental := by
    rw [qdi, pdi]
    exact hwi
  rw [r5 hwi2, qdi, pdi]

/-- C6: a successful automated tool change restores the machine to the
snapshot taken before the change: the final machine X and Y equal the
saved position, the final machine Z equals the saved Z adjusted by the
applied tool length offset, and the distance mode ends equal to its
pre-change value. -/
theorem C6_round_trip (n : Nat) (s : St) (stp : Vec3)
    (h1 : s.atc_ok = true) (h2 : n ≤ MANUAL_CHG)
    (h3 : s.current_tool ≠ MANUAL_CHG) (h4 : n ≠ MANUAL_CHG)
    (h5 : s.probeOutcome = ProbeOutcome.success stp)
    (h6 : s.sysAlarm = false) :
    (tool_change n false s).1 = true ∧
    (tool_change n false s).2.mpos.x = s.mpos.x ∧
    (tool_change n false s).2.mpos.y = s.mpos.y ∧
    (tool_change n false s).2.mpos.z =
      s.mpos.z + (tool_change n false s).2.toolLengthOffset ∧
    (tool_change n false s).2.distance = s.distance := by
  rw [tool_change_to_auto n s h1 h2 h3 h4]
  refine tc_auto_success n _ _ s.coolantFlood s.coolantMist s.mpos s stp
    ?_ h5 h6 (by simp)
  intro h
  have h' := of_decide_eq_false h
  exact not_not.mp h'

/-- A state away from the origin whose next probe succeeds. -/
def st6 : St :=
  { st0 with mpos := ⟨3, 4, 5⟩, probeOutcome := ProbeOutcome.success ⟨7, 8, 9⟩ }

theorem C6_round_trip_witness :
    (tool_change 2 false st6).1 = true ∧
    (tool_change 2 false st6).2.mpos.x = st6.mpos.x ∧
    (tool_change 2 false st6).2.mpos.y = st6.mpos.y ∧
    (tool_change 2 false st6).2.mpos.z =
      st6.mpos.z + (tool_change 2 false st6).2.toolLengthOffset ∧
    (tool_change 2 false st6).2.distance = st6.distance :=
  C6_round_trip 2 st6 ⟨7, 8, 9⟩ rfl (by decide) (by decide) (by decide) rfl rfl

lemma append_six (l : List Event) (a b c d e f : Event) :
    l ++ [a, b, c, d, e, f] = (l ++ [a, b, c, d, e]) ++ [f] := by
  simp

lemma tc_auto_alarm (n : Nat) (wi so cf cm : Bool) (sv : Vec3) (s : St)
    (c : ExecAlarm)
    (hsp : so = false → s.spindle = SpindleState.Disable)
    (hpo : s.probeOutcome = ProbeOutcome.alarm c) :
    (tc_auto n wi so cf cm sv s).1 = false ∧
    ∃ l f z, (tc_auto n wi so cf cm sv s).2.log =
      l ++ [Event.gline (GLine.probe f z)] := by
  obtain ⟨ppo, -, -, -, -, -, -⟩ := tc_prep_spec n so cf cm s hsp
  have hpo1 : (tc_prep n so cf cm s).probeOutcome = ProbeOutcome.alarm c := by
    rw [ppo, hpo]
  obtain ⟨q1, q2⟩ := probe_alarm_spec (tc_prep n so cf cm s) c hpo1
  have hne : (atc_toolsetter_probe (tc_prep n so cf cm s)).1 ≠ ProbeResult.ok := by
    rw [q1]
    split <;> simp
  have hred : tc_auto n wi so cf cm sv s =
      (false, (atc_toolsetter_probe (tc_prep n so cf cm s)).2) := by
    simp only [tc_auto]
    rw [if_pos hne]
  rw [hred]
  refine ⟨rfl, ?_⟩
  rw [show ((false, (atc_toolsetter_probe (tc_prep n so cf cm s)).2) :
      Bool × St).2.log = (atc_toolsetter_probe (tc_prep n so cf cm s)).2.log
    from rfl, q2]
  exact ⟨_, _, _, append_six _ _ _ _ _ _ _⟩

lemma tc_auto_rejects (n : Nat) (wi so cf cm : Bool) (sv : Vec3) (s : St)
    (hsp : so = false → s.spindle = SpindleState.Disable) :
    rejectCount (tc_auto n wi so cf cm sv s).2.log = rejectCount s.log ∧
    goodValveWrites (tc_auto n wi so cf cm sv s).2.log =
      goodValveWrites s.log := by
  obtain ⟨-, -, -, -, -, pr1, pg1⟩ := tc_prep_spec n so cf cm s hsp
  obtain ⟨qr, qg⟩ := probe_log_counts (tc_prep n so cf cm s)
  obtain ⟨-, -, -, -, -, rr, rg⟩ :=
    tc_restore_spec wi so cf cm sv (atc_toolsetter_probe (tc_prep n so cf cm s)).2
  simp only [tc_auto]
  split
  · exact ⟨by rw [qr, pr1], by rw [qg, pg1]⟩
  · exact ⟨by dsimp only; rw [rr, qr, pr1], by dsimp only; rw [rg, qg, pg1]⟩

/-- C2: for every `tool_change` call that reaches the automated
pickup/return sub-sequence, no interlock rejection ever occurs during
the run (the spindle is disabled by that point, so every holder-valve
write succeeds), and if the probing step raises an alarm the whole
change aborts immediately: it reports failure and the probing move is
the last observable action — no restore motion or actuation follows. -/
theorem C2_failure_aborts (n : Nat) (s : St)
    (h1 : s.atc_ok = true) (h2 : n ≤ MANUAL_CHG)
    (h3 : s.current_tool ≠ MANUAL_CHG) (h4 : n ≠ MANUAL_CHG)
    (h5 : s.current_tool ≠ NO_TOOL ∨ n ≠ NO_TOOL) :
    rejectCount (tool_change n false s).2.log = rejectCount s.log ∧
    (∀ c, s.probeOutcome = ProbeOutcome.alarm c →
      (tool_change n false s).1 = false ∧
      ∃ l f z, (tool_change n false s).2.log =
        l ++ [Event.gline (GLine.probe f z)]) := by
  rw [tool_change_to_auto n s h1 h2 h3 h4]
  have hsp : decide (s.spindle ≠ SpindleState.Disable) = false →
      s.spindle = SpindleState.Disable :=
    fun h => not_not.mp (of_decide_eq_false h)
  constructor
  · exact (tc_auto_rejects n _ _ s.coolantFlood s.coolantMist s.mpos s hsp).1
  · intro c hpo
    exact tc_auto_alarm n _ _ s.coolantFlood s.coolantMist s.mpos s c hsp hpo

/-- A ready state with tool 1 mounted whose next probe raises the
initial-fail alarm. -/
def stC2 : St :=
  { st0 with probeOutcome := ProbeOutcome.alarm ExecAlarm.ProbeFailInitial,
             current_tool := 1 }

theorem C2_failure_aborts_witness :
    rejectCount (tool_change 0 false stC2).2.log = rejectCount stC2.log ∧
    ((tool_change 0 false stC2).1 = false ∧
     ∃ l f z, (tool_change 0 false stC2).2.log =
       l ++ [Event.gline (GLine.probe f z)]) :=
  ⟨(C2_failure_aborts 0 stC2 rfl (by decide) (by decide) (by decide)
      (Or.inl (by decide))).1,
   (C2_failure_aborts 0 stC2 rfl (by decide) (by decide) (by decide)
      (Or.inl (by decide))).2 ExecAlarm.ProbeFailInitial rfl⟩

/-! ### The valve-interlock invariant over arbitrary call sequences -/

lemma set_ATC_state_good (b : Bool) (s : St) :
    goodValveWrites (set_ATC_state b s).2.log = goodValveWrites s.log := by
  by_cases h : s.spindle = SpindleState.Disable
  · rw [set_ATC_state_disable b s h]
    simp [goodValveWrites, goodEv, List.all_append]
  · rw [set_ATC_state_reject b s h]
    simp [goodValveWrites, goodEv, List.all_append]

lemma tool_change_manual_counts (n : Nat) (s : St)
    (hsp : s.spindle = SpindleState.Disable) :
    rejectCount (tool_change_manual n s).log = rejectCount s.log ∧
    goodValveWrites (tool_change_manual n s).log = goodValveWrites s.log := by
  cases s with
  | mk sp di cf cm csz coz tlo mp ps sa la vl po ok ct zt tl tz ez tsp lg =>
    dsimp only at hsp
    subst hsp
    simp [tool_change_manual, set_ATC_state, synchronousWrite, gc_exec_linef,
      applyLine, emit, rejectCount, goodValveWrites, goodEv,
      List.filter_append, List.all_append]

lemma good_tool_change (n : Nat) (pre : Bool) (s : St) :
    goodValveWrites (tool_change n pre s).2.log = goodValveWrites s.log := by
  have hsp : decide (s.spindle ≠ SpindleState.Disable) = false →
      s.spindle = SpindleState.Disable :=
    fun h => not_not.mp (of_decide_eq_false h)
  simp only [tool_change]
  split
  · rfl
  · split
    · rfl
    · split
      · rfl
      · split
        · split
          · rfl
          · split
            · rfl
            · rename_i hso _
              exact (tool_change_manual_counts n s
                (hsp (Bool.not_eq_true _ ▸ eq_false_of_ne_true hso))).2
        · exact (tc_auto_rejects n _ _ s.coolantFlood s.coolantMist
            s.mpos s hsp).2

lemma atc_init_tools_log (cfg : Config) :
    ∀ (k i : Nat) (s : St), TOOL_COUNT - i ≤ k →
      (atc_init_tools cfg i s).2.log = s.log := by
  intro k
  induction k with
  | zero =>
    intro i s hk
    unfold atc_init_tools
    split
    · rename_i hi
      omega
    · rfl
  | succ k ih =>
    intro i s hk
    unfold atc_init_tools
    split
    · rename_i hi
      split
      · rfl
      · rw [ih (i + 1) _ (by omega)]
    · rfl

lemma atc_init_log (cfg : Config) (s : St) :
    (atc_init cfg s).2.log = s.log := by
  unfold atc_init
  split
  · rfl
  · split
    · rfl
    · split
      · rfl
      · rw [atc_init_tools_log cfg TOOL_COUNT 0 _ (by omega)]

lemma init_log (cfg : Config) (s : St) : (init cfg s).log = s.log :=
  atc_init_log cfg s

lemma good_runOp (o : Op) (s : St) :
    goodValveWrites (runOp o s).log = goodValveWrites s.log := by
  cases o with
  | toolChange n pre po =>
    exact good_tool_change n pre { s with probeOutcome := po }
  | deact =>
    exact good_tool_change 0 false s
  | setAtc b =>
    exact set_ATC_state_good b s
  | probeNotif =>
    show goodValveWrites (probe_notification s).log = goodValveWrites s.log
    unfold probe_notification
    split <;> rfl
  | doInit cfg =>
    rw [show (runOp (Op.doInit cfg) s).log = (init cfg s).log from rfl,
      init_log]

/-- C1: the holder valve is never written while the spindle modal state
is enabled.  First part: a `set_ATC_state` call made while the spindle
is not Disable returns false, leaves the valve state unchanged and adds
no valve write to the log (the write count stays constant).  Second
part: across any sequence of public operations, every ATC-valve write in
the log is performed in a state where the spindle modal state is
Disable. -/
theorem C1_valve_interlock (b : Bool) (s : St) :
    (s.spindle ≠ SpindleState.Disable →
      (set_ATC_state b s).1 = false ∧
      (set_ATC_state b s).2.valve = s.valve ∧
      valveWriteCount (set_ATC_state b s).2.log = valveWriteCount s.log) ∧
    (∀ ops : List Op, goodValveWrites s.log = true →
      goodValveWrites (runOps ops s).log = true) := by
  constructor
  · intro h
    rw [set_ATC_state_reject b s h]
    refine ⟨rfl, rfl, ?_⟩
    simp [valveWriteCount, List.filter_append]
  · intro ops
    induction ops generalizing s with
    | nil => exact fun h => h
    | cons o os ih =>
      intro h
      exact ih (runOp o s) (by rw [good_runOp]; exact h)

/-- A state with the spindle modal state enabled. -/
def stOn : St := { st0 with spindle := SpindleState.CW }

theorem C1_valve_interlock_witness :
    ((set_ATC_state true stOn).1 = false ∧
     (set_ATC_state true stOn).2.valve = stOn.valve ∧
     valveWriteCount (set_ATC_state true stOn).2.log =
       valveWriteCount stOn.log) ∧
    goodValveWrites (runOps
      [Op.toolChange 2 false (ProbeOutcome.success ⟨7, 8, 9⟩),
       Op.setAtc true, Op.deact] st0).log = true :=
  ⟨(C1_valve_interlock true stOn).1 (by decide),
   (C1_valve_interlock true st0).2
     [Op.toolChange 2 false (ProbeOutcome.success ⟨7, 8, 9⟩),
      Op.setAtc true, Op.deact] rfl⟩

end KressATC
